import Mathlib

/-
Verification development for the DocuNexus AGI-Agent repository.

Python strings are embedded as `List Char`; Python `str.strip`, `str.split`
and `str.lower` are embedded below.  Vendor SDK calls (Azure OpenAI chat
completions, Azure Form Recognizer, the Snowflake connector) are embedded as
function parameters returning `Except`/`Option` values: an `Except.error`
value models the vendor call raising an exception, which the repository's
code catches with broad `except` handlers.
-/

/-- Single-quote character (used inside prompt-template literals). -/
def sqc : Char := Char.ofNat 39

/-- Python `str.isspace` for the ASCII whitespace characters
(space, tab, newline, carriage return, vertical tab, form feed). -/
def pyIsSpace (c : Char) : Bool :=
  c = ' ' || c = Char.ofNat 9 || c = Char.ofNat 10 || c = Char.ofNat 13 ||
  c = Char.ofNat 11 || c = Char.ofNat 12

/-- Python `str.strip()`: drop leading and trailing whitespace. -/
def pyStrip (s : List Char) : List Char :=
  ((s.dropWhile pyIsSpace).reverse.dropWhile pyIsSpace).reverse

/-- Worker for Python `str.split(sep)` with a non-empty separator: scans left
to right, cutting at each non-overlapping occurrence of `sep`.  `fuel` is an
upper bound on the number of characters still to scan (the caller passes
`s.length`); `acc` holds the reversed characters of the current field. -/
def pySplitGo (sep : List Char) (fuel : Nat) (acc s : List Char) : List (List Char) :=
  match s with
  | [] => [acc.reverse]
  | c :: rest =>
    match fuel with
    | 0 => [acc.reverse ++ c :: rest]
    | fuel' + 1 =>
      if sep.isPrefixOf (c :: rest) then
        acc.reverse :: pySplitGo sep fuel' [] (rest.drop (sep.length - 1))
      else
        pySplitGo sep fuel' (c :: acc) rest

/-- Python `s.split(sep)` for a non-empty separator `sep`. -/
def pySplit (sep s : List Char) : List (List Char) :=
  pySplitGo sep s.length [] s

/-- Index of the first occurrence of `sep` in `s` (`none` when `sep` does not
occur).  Used to state split properties the way the specification words them. -/
def firstOcc (sep : List Char) : List Char → Option Nat
  | [] => none
  | c :: rest =>
    if sep.isPrefixOf (c :: rest) then some 0
    else (firstOcc sep rest).map (fun n => n + 1)

/-- Everything after the first occurrence of `sep` in `s` (all of `s` when
`sep` does not occur). -/
def textAfterFirst (sep s : List Char) : List Char :=
  match firstOcc sep s with
  | none => s
  | some i => s.drop (i + sep.length)

/-- Python `str.lower` (ASCII). -/
def pyLower (s : List Char) : List Char := s.map Char.toLower

/-
=== src/core/response_formatter.py ===
-/

/-- The thoughts marker used by `ResponseFormatter.format_text_response`. -/
def markerDN : List Char := "***DocuNexus Thoughts:***".data

/-- `ResponseFormatter.format_text_response`: strips the raw model text,
splits on the thoughts marker, and returns the stripped first field together
with the stripped second field (empty when the marker is absent). -/
def format_text_response (response_text : List Char) : List Char × List Char :=
  let formatted := pyStrip response_text
  let parts := pySplit markerDN formatted
  let main_response := pyStrip (parts.headD [])
  let thoughts := if 1 < parts.length then pyStrip (parts.getD 1 []) else []
  (main_response, thoughts)

/-- Modelled from the spec sentence for the same routine: the main response is
the stripped text before the first occurrence of the marker, the thoughts are
the stripped segment immediately after that occurrence (up to the next
occurrence), and the thoughts are empty when the marker is absent. -/
def format_text_response_spec (response_text : List Char) : List Char × List Char :=
  let formatted := pyStrip response_text
  match firstOcc markerDN formatted with
  | none => (pyStrip formatted, [])
  | some i =>
    let after := formatted.drop (i + markerDN.length)
    let seg :=
      match firstOcc markerDN after with
      | none => after
      | some j => after.take j
    (pyStrip (formatted.take i), pyStrip seg)

/-- Python values produced by `json.loads` (string payloads as `List Char`,
numbers abstracted to `Int`). -/
inductive JsonVal where
  | jnull
  | jbool (b : Bool)
  | jnum (n : Int)
  | jstr (s : List Char)
  | jlist (items : List JsonVal)
  | jobj (fields : List (List Char × JsonVal))

/-- Result of `ResponseFormatter.format_data_response`: either a Pandas
DataFrame built from the parsed JSON list, or the raw input returned
unchanged. -/
inductive DataResponse where
  | dataframe (rows : List JsonVal)
  | raw (body : List Char)

/-- `ResponseFormatter.format_data_response`.  `loads` embeds `json.loads`:
`none` models it raising `json.JSONDecodeError`, which the code catches and
answers with the raw response. -/
def format_data_response (loads : List Char → Option JsonVal)
    (response_body : List Char) : DataResponse :=
  match loads response_body with
  | some (JsonVal.jlist items) => DataResponse.dataframe items
  | some _ => DataResponse.raw response_body
  | none => DataResponse.raw response_body

/-- `format_response` from src/utils/helpers.py (same logic as
`format_data_response`). -/
def format_response (loads : List Char → Option JsonVal)
    (response_body : List Char) : DataResponse :=
  match loads response_body with
  | some (JsonVal.jlist items) => DataResponse.dataframe items
  | some _ => DataResponse.raw response_body
  | none => DataResponse.raw response_body

/-
=== src/core/prompt_templates.py (AzurePromptTemplates) ===
Template strings are transcribed byte-for-byte from the source f-strings;
the single-quote character is spliced in as `sqc`.
-/

/-- Python `repr` of a list of strings (faithful for strings that contain no
quote or escape characters, the only shape the templates interpolate). -/
def pyReprStrList (items : List (List Char)) : List Char :=
  "[".data ++ List.intercalate (", ".data) (items.map (fun s => [sqc] ++ s ++ [sqc])) ++ "]".data

/-- `{chr(10).join(context_documents) if context_documents else 'No documents provided.'}` -/
def renderContextDocs (context_documents : Option (List (List Char))) : List Char :=
  match context_documents with
  | some ds => if ds = [] then "No documents provided.".data else List.intercalate ("\n".data) ds
  | none => "No documents provided.".data

/-- `{media_description or 'No media description provided.'}` -/
def renderMediaDescription (media_description : Option (List (List Char))) : List Char :=
  match media_description with
  | some ds => if ds = [] then "No media description provided.".data else pyReprStrList ds
  | none => "No media description provided.".data

/-- `{context or 'None'}` in the default template. -/
def renderDefaultContext (context : Option (List (List Char))) : List Char :=
  match context with
  | some ds => if ds = [] then "None".data else pyReprStrList ds
  | none => "None".data

def daSeg1 : List Char :=
  "\n        [Azure DocuNexus AGI - Document Analysis Task]\n\n        You are Azure DocuNexus, an intelligent AGI agent powered by Azure OpenAI, specializing in document analysis. \n        Your goal is to deeply analyze the provided documents and respond to the user".data
    ++ [sqc] ++ "s request with a ".data

def daSeg2 : List Char := " response in ".data

def daSeg3 : List Char := ".\n\n        **User Request:**\n        ".data

def daSeg4 : List Char := "\n\n        **Context Documents:**\n        ---Document Start---\n        ".data

def daSeg5 : List Char :=
  "\n        ---Document End---\n\n        Response Guidelines:\n        * Provide a clear, comprehensive, and detailed answer that directly addresses the user".data
    ++ [sqc] ++ "s request.\n        * Use bullet points or numbered lists where appropriate for clarity.\n        * Focus on extracting key insights and actionable information from the documents.\n        ".data

def daThoughts : List Char :=
  "\n***DocuNexus Azure Thoughts:*** Include a section at the end, marked ".data
    ++ [sqc] ++ "***DocuNexus Azure Thoughts:***".data ++ [sqc]
    ++ ", explaining your reasoning step-by-step.".data

/-- `AzurePromptTemplates._document_analysis_prompt`. -/
def document_analysis_prompt (user_prompt : List Char)
    (context_documents : Option (List (List Char)))
    (response_length language : List Char) (request_thoughts : Bool) : List Char :=
  let prompt := daSeg1 ++ response_length ++ daSeg2 ++ language ++ daSeg3 ++ user_prompt
    ++ daSeg4 ++ renderContextDocs context_documents ++ daSeg5
  if request_thoughts then prompt ++ daThoughts else prompt

def msSeg1 : List Char :=
  "\n        [Azure DocuNexus AGI - Media Summarization Task]\n\n        You are Azure DocuNexus, an intelligent AGI agent powered by Azure OpenAI, specializing in media summarization. \n        Your goal is to summarize the media content based on the user".data
    ++ [sqc] ++ "s request in a ".data

def msSeg2 : List Char := " response in ".data

def msSeg3 : List Char := ".\n\n        **User Request:**\n        ".data

def msSeg4 : List Char := "\n\n        **Media Description:**\n        ".data

def msSeg5 : List Char :=
  "\n\n        Response Guidelines:\n        * Provide a concise and informative summary of the media content relevant to the user".data
    ++ [sqc] ++ "s query.\n        * Focus on key themes, objects, or information present in the media.\n        ".data

def msThoughts : List Char :=
  "\n***DocuNexus Azure Thoughts:*** Include a brief section marked ".data
    ++ [sqc] ++ "***DocuNexus Azure Thoughts:***".data ++ [sqc]
    ++ " explaining your reasoning.".data

/-- `AzurePromptTemplates._media_summarization_prompt`. -/
def media_summarization_prompt (user_prompt : List Char)
    (media_description : Option (List (List Char)))
    (response_length language : List Char) (request_thoughts : Bool) : List Char :=
  let prompt := msSeg1 ++ response_length ++ msSeg2 ++ language ++ msSeg3 ++ user_prompt
    ++ msSeg4 ++ renderMediaDescription media_description ++ msSeg5
  if request_thoughts then prompt ++ msThoughts else prompt

def wvSeg1 : List Char :=
  "\n        [Azure DocuNexus AGI - Webcam Vision Analysis Task]\n\n        You are Azure DocuNexus, an intelligent AGI agent powered by Azure OpenAI, specializing in real-time webcam analysis. \n        Your goal is to analyze the live webcam feed and answer the user".data
    ++ [sqc] ++ "s question in a ".data

def wvSeg2 : List Char := " response in ".data

def wvSeg3 : List Char := ".\n\n        **User Question:**\n        ".data

def wvSeg4 : List Char :=
  "\n\n        **Instructions:**\n        * Analyze objects, scenes, and activities visible in the webcam feed.\n        * Provide detailed insights, interpretations, and relevant information based on your analysis.\n        ".data

def wvThoughts : List Char :=
  "\n***DocuNexus Azure Thoughts:*** Include a section at the end, marked ".data
    ++ [sqc] ++ "***DocuNexus Azure Thoughts:***".data ++ [sqc]
    ++ ", explaining your step-by-step analysis process.".data

/-- `AzurePromptTemplates._webcam_vision_prompt`. -/
def webcam_vision_prompt (user_prompt : List Char)
    (response_length language : List Char) (request_thoughts : Bool) : List Char :=
  let prompt := wvSeg1 ++ response_length ++ wvSeg2 ++ language ++ wvSeg3 ++ user_prompt ++ wvSeg4
  if request_thoughts then prompt ++ wvThoughts else prompt

def dfSeg1 : List Char := "\n        [Azure DocuNexus AGI - General Inquiry]\n\n        **User Question:**\n        ".data

def dfSeg2 : List Char := "\n\n        **Context:**\n        ".data

def dfSeg3 : List Char :=
  "\n\n        **Response Guidelines:**\n        Provide a clear and helpful answer that directly addresses the user".data
    ++ [sqc] ++ "s question, incorporating any context provided.\n        ".data

/-- `AzurePromptTemplates._default_prompt`. -/
def default_prompt (user_prompt : List Char) (context : Option (List (List Char))) : List Char :=
  dfSeg1 ++ user_prompt ++ dfSeg2 ++ renderDefaultContext context ++ dfSeg3

/-- `AzurePromptTemplates.create_prompt`: dispatches on the task type, calling
each template with its default keyword arguments. -/
def create_prompt (task_type user_prompt : List Char)
    (context : Option (List (List Char))) : List Char :=
  if task_type = ("document_analysis".data) then
    document_analysis_prompt user_prompt context ("comprehensive".data) ("English".data) true
  else if task_type = ("media_summarization".data) then
    media_summarization_prompt user_prompt context ("concise".data) ("English".data) false
  else if task_type = ("webcam_vision_analysis".data) then
    webcam_vision_prompt user_prompt ("detailed".data) ("English".data) true
  else
    default_prompt user_prompt context

/-
=== src/core/agi_engine.py (AGIEngine) ===
`generate_content` is the vendor model call: `Except.error e` models it
raising an exception whose message is `e`.
-/

/-- A Python return value of `AGIEngine.process_text_request`: the bare error
string from the `except` branch, or the `(response, thoughts)` tuple. -/
inductive PyResult where
  | errString (s : List Char)
  | pair (response thoughts : List Char)
deriving DecidableEq

/-- `AGIEngine.process_text_request`: builds the document-analysis prompt,
calls the model, and either formats the response or returns the error
string. -/
def process_text_request (generate_content : List Char → Except (List Char) (List Char))
    (prompt : List Char) (context_documents : Option (List (List Char))) : PyResult :=
  let full_prompt := create_prompt ("document_analysis".data) prompt context_documents
  match generate_content full_prompt with
  | Except.error e => PyResult.errString ("Error processing request with AI model: ".data ++ e)
  | Except.ok response_text =>
    let ft := format_text_response response_text
    PyResult.pair ft.1 ft.2

/-- `AGIEngine.process_vision_request` (the base64 image payload does not
affect the returned value and is elided from the vendor-call parameter):
returns `(error string, None)` when the vision model raises, otherwise the
formatted `(response, thoughts)` pair. -/
def process_vision_request (generate_content : List Char → Except (List Char) (List Char))
    (prompt : List Char) : List Char × Option (List Char) :=
  match generate_content prompt with
  | Except.error e => ("Error processing vision request: ".data ++ e, none)
  | Except.ok response_text =>
    let ft := format_text_response response_text
    (ft.1, some ft.2)

/-
=== src/document_analysis/metadata_handler.py (AzureMetadataHandler) ===
-/

/-- The prompt `AzureMetadataHandler.analyze_metadata` builds from the
metadata mapping (embedded as an association list). -/
def metadataPrompt (metadata : List (List Char × List Char)) : List Char :=
  "Analyze the following document metadata and provide insights:\n".data
    ++ (metadata.map (fun kv => kv.1 ++ ": ".data ++ kv.2 ++ "\n".data)).flatten

/-- `AzureMetadataHandler.analyze_metadata`: `get_chat` embeds the Azure
OpenAI chat-completion call on the user prompt (the fixed system message is
part of the vendor call). -/
def analyze_metadata (get_chat : List Char → Except (List Char) (List Char))
    (metadata : List (List Char × List Char)) : List Char :=
  match get_chat (metadataPrompt metadata) with
  | Except.ok insights => insights
  | Except.error e => "Error occurred: ".data ++ e

/-
=== src/document_analysis/summarizer.py (AzureDocumentSummarizer) ===
-/

/-- The thoughts marker used by `summarize_document`. -/
def markerTP : List Char := "***Thought Process:***".data

/-- Fallback thoughts text when the marker is absent from the response. -/
def fixedThoughtsMsg : List Char :=
  "Thought process section was not explicitly provided.".data

/-- The prompt `summarize_document` builds before calling the model. -/
def mkSummaryPrompt (document_text summary_length : List Char)
    (request_thoughts : Bool) : List Char :=
  let prompt := "Summarize the following document in a ".data ++ summary_length
    ++ " manner:\n\n".data ++ document_text
  if request_thoughts then
    prompt ++ "\nPlease also provide your reasoning and thought process behind this summary.".data
  else prompt

/-- `AzureDocumentSummarizer.summarize_document`. -/
def summarize_document (get_chat : List Char → Except (List Char) (List Char))
    (document_text summary_length : List Char) (request_thoughts : Bool) :
    List Char × Option (List Char) :=
  match get_chat (mkSummaryPrompt document_text summary_length request_thoughts) with
  | Except.ok summary_text =>
    if request_thoughts then
      let parts := pySplit markerTP summary_text
      let main_summary := pyStrip (parts.headD [])
      let thoughts_text :=
        if 1 < parts.length then pyStrip (parts.getD 1 []) else fixedThoughtsMsg
      (main_summary, some thoughts_text)
    else (summary_text, none)
  | Except.error e => ("Error occurred: ".data ++ e, none)

/-- The segment of a model response that `summarize_document` extracts as
thoughts: the stripped text between the first occurrence of the marker and
the next occurrence (the whole remainder when the marker occurs once),
`none` when the marker is absent. -/
def thoughtsSegment (t : List Char) : Option (List Char) :=
  match firstOcc markerTP t with
  | none => none
  | some i =>
    let after := t.drop (i + markerTP.length)
    match firstOcc markerTP after with
    | none => some (pyStrip after)
    | some j => some (pyStrip (after.take j))

/-
=== src/document_analysis/document_parser.py (AzureDocumentParser) ===
Each `_parse_*` helper wraps its vendor/library call in its own
`try/except` and returns the empty string on failure; `parse_document`
dispatches on the file extension, returning `None` on unsupported formats.
-/

/-- `AzureDocumentParser._parse_with_azure`: the vendor result is a list of
pages, each a list of line contents; success concatenates `line + "\n"`. -/
def parse_with_azure (vendor : Except (List Char) (List (List (List Char)))) : List Char :=
  match vendor with
  | Except.ok pages => ((pages.flatten).map (fun line => line ++ "\n".data)).flatten
  | Except.error _ => []

/-- `AzureDocumentParser._parse_docx`: paragraphs joined with `"\n"`. -/
def parse_docx (vendor : Except (List Char) (List (List Char))) : List Char :=
  match vendor with
  | Except.ok paragraphs => (paragraphs.map (fun p => p ++ "\n".data)).flatten
  | Except.error _ => []

/-- `AzureDocumentParser._parse_txt`: the decoded file content. -/
def parse_txt (vendor : Except (List Char) (List Char)) : List Char :=
  match vendor with
  | Except.ok text => text
  | Except.error _ => []

/-- `uploaded_file.name.split(".")[-1].lower()`. -/
def fileExtension (name : List Char) : List Char :=
  pyLower ((pySplit (String.data ".") name).getLastD [])

/-- Extensions routed to Azure Form Recognizer. -/
def azureExtensions : List (List Char) :=
  ["pdf".data, "jpeg".data, "jpg".data, "png".data]

/-- All extensions `parse_document` accepts. -/
def supportedExtensions : List (List Char) :=
  ["pdf".data, "jpeg".data, "jpg".data, "png".data, "docx".data, "txt".data]

/-- `AzureDocumentParser.parse_document`: dispatches on the lowercased
extension; the three vendor parameters are the outcomes of the respective
helpers' wrapped calls. -/
def parse_document (name : List Char)
    (azureVendor : Except (List Char) (List (List (List Char))))
    (docxVendor : Except (List Char) (List (List Char)))
    (txtVendor : Except (List Char) (List Char)) : Option (List Char) :=
  let ext := fileExtension name
  if ext ∈ azureExtensions then some (parse_with_azure azureVendor)
  else if ext = ("docx".data) then some (parse_docx docxVendor)
  else if ext = ("txt".data) then some (parse_txt txtVendor)
  else none

/-
=== src/integrations/snowflake_api.py (AzureSnowflakeIntegration) ===
`connect_to_snowflake` catches every exception itself and returns `None` on
failure, so it is embedded as an `Option Nat` (a connection handle).
`run` embeds `cursor.execute` + `fetchall`; `Except.error` models the query
raising.  The second component records the connection lifecycle events the
call performed, in order.
-/

inductive ConnEvent where
  | connected (c : Nat)
  | closed (c : Nat)
deriving DecidableEq

/-- `AzureSnowflakeIntegration.execute_query`: on an established connection
the query runs inside `try/except` with `connection.close()` in `finally`. -/
def execute_query (connect : Option Nat)
    (run : Nat → Except (List Char) (List (List Char))) :
    Option (List (List Char)) × List ConnEvent :=
  match connect with
  | none => (none, [])
  | some conn =>
    match run conn with
    | Except.ok results => (some results, [ConnEvent.connected conn, ConnEvent.closed conn])
    | Except.error _ => (none, [ConnEvent.connected conn, ConnEvent.closed conn])

/-
=== src/utils/config.py (AppConfig) ===
`kv` embeds the optional Azure Key Vault client (`none` when Key Vault is
not configured; a lookup returning `none` models `get_secret` raising, which
the code catches before falling back to the environment).  `env` embeds
`os.environ.get`.  The source's attribute names contain hyphens
(`Phi-4-multimodal-instruct_...`); they are rendered here with `phi4mm_`.
-/

structure AppConfig where
  phi4mm_api_key : List Char
  azure_api_key : List Char
  docusign_api_key : Option (List Char)
  snowflake_user : Option (List Char)
  snowflake_password : Option (List Char)
  snowflake_account : Option (List Char)
  snowflake_warehouse : Option (List Char)
  snowflake_database : Option (List Char)
  snowflake_schema : Option (List Char)
  phi4mm_model_name : List Char
  azure_endpoint : List Char
  azure_model_name : List Char
  system_instruction : List Char
deriving DecidableEq

/-- `AppConfig._get_secret`: Key Vault first (when configured), environment
variable as fallback. -/
def get_secret (kv : Option (List Char → Option (List Char)))
    (env : List Char → Option (List Char)) (name : List Char) : Option (List Char) :=
  match kv with
  | some lookup =>
    match lookup name with
    | some v => some v
    | none => env name
  | none => env name

/-- `if not value: raise ValueError(...)` on a required secret. -/
def requireSecret (v : Option (List Char)) (errMsg : List Char) :
    Except (List Char) (List Char) :=
  match v with
  | some s => if s = [] then Except.error errMsg else Except.ok s
  | none => Except.error errMsg

/-- The `system_instruction` triple-quoted literal, byte for byte. -/
def systemInstructionText : List Char :=
  "\n            **Identity & Core Purpose**\n            I am DocuNexus, a helpful and informative AGI designed to assist users...\n            (This instruction can be expanded based on your application needs.)\n        ".data

/-- `AppConfig._load_config`, invoked exactly once, from `AppConfig.__init__`:
fetches every secret, raising `ValueError` when a required key is missing. -/
def load_config (kv : Option (List Char → Option (List Char)))
    (env : List Char → Option (List Char)) : Except (List Char) AppConfig := do
  let pk ← requireSecret (get_secret kv env ("Phi-4-multimodal-instruct_API_KEY".data))
    ("Phi-4-multimodal-instruct_API_KEY not set in Azure Key Vault or environment variables.".data)
  let ak ← requireSecret (get_secret kv env ("AZURE_AI_API_KEY".data))
    ("AZURE_AI_API_KEY not set in Azure Key Vault or environment variables.".data)
  Except.ok
    { phi4mm_api_key := pk
      azure_api_key := ak
      docusign_api_key := get_secret kv env ("DOCUSIGN_API_KEY".data)
      snowflake_user := get_secret kv env ("SNOWFLAKE_USER".data)
      snowflake_password := get_secret kv env ("SNOWFLAKE_PASSWORD".data)
      snowflake_account := get_secret kv env ("SNOWFLAKE_ACCOUNT".data)
      snowflake_warehouse := get_secret kv env ("SNOWFLAKE_WAREHOUSE".data)
      snowflake_database := get_secret kv env ("SNOWFLAKE_DATABASE".data)
      snowflake_schema := get_secret kv env ("SNOWFLAKE_SCHEMA".data)
      phi4mm_model_name :=
        (env ("Phi-4-multimodal-instruct_MODEL_NAME".data)).getD ("Phi-4-multimodal-instruct-pro".data)
      azure_endpoint :=
        (env ("AZURE_ENDPOINT".data)).getD ("https://models.inference.ai.azure.com".data)
      azure_model_name := (env ("AZURE_MODEL_NAME".data)).getD ("Phi-4-multimodal-instruct".data)
      system_instruction := systemInstructionText }

/-- Fields of the loaded configuration. -/
inductive ConfigField where
  | phi4mmApiKey | azureApiKey | docusignApiKey
  | snowflakeUser | snowflakePassword | snowflakeAccount
  | snowflakeWarehouse | snowflakeDatabase | snowflakeSchema
  | phi4mmModelName | azureEndpoint | azureModelName | systemInstruction
deriving DecidableEq

def fieldValue (c : AppConfig) : ConfigField → Option (List Char)
  | ConfigField.phi4mmApiKey => some c.phi4mm_api_key
  | ConfigField.azureApiKey => some c.azure_api_key
  | ConfigField.docusignApiKey => c.docusign_api_key
  | ConfigField.snowflakeUser => c.snowflake_user
  | ConfigField.snowflakePassword => c.snowflake_password
  | ConfigField.snowflakeAccount => c.snowflake_account
  | ConfigField.snowflakeWarehouse => c.snowflake_warehouse
  | ConfigField.snowflakeDatabase => c.snowflake_database
  | ConfigField.snowflakeSchema => c.snowflake_schema
  | ConfigField.phi4mmModelName => some c.phi4mm_model_name
  | ConfigField.azureEndpoint => some c.azure_endpoint
  | ConfigField.azureModelName => some c.azure_model_name
  | ConfigField.systemInstruction => some c.system_instruction

/-- The operations the repository performs on an `AppConfig` object after
construction: calling `_get_secret` (a read of external sources that assigns
no attribute) and reading a configuration attribute.  `_load_config` is not
among them: its only call site is `__init__`. -/
inductive ConfigOp where
  | getSecretOp (name : List Char)
  | readField (f : ConfigField)

/-- One post-construction operation: returns the (unchanged) configuration
and the value the operation produced. -/
def runConfigOp (kv : Option (List Char → Option (List Char)))
    (env : List Char → Option (List Char)) (c : AppConfig) (op : ConfigOp) :
    AppConfig × Option (List Char) :=
  match op with
  | ConfigOp.getSecretOp n => (c, get_secret kv env n)
  | ConfigOp.readField f => (c, fieldValue c f)

/-- A sequence of post-construction operations, threading the configuration. -/
def runConfigOps (kv : Option (List Char → Option (List Char)))
    (env : List Char → Option (List Char)) (c : AppConfig) (ops : List ConfigOp) : AppConfig :=
  ops.foldl (fun st op => (runConfigOp kv env st op).1) c

/-
=== src/main.py (Streamlit session state and event handlers) ===
Session state is `logged_in` plus the `history` list initialised to `[]`.
Each UI event is handled by the code in main.py; `gen` embeds the selected
model's `generate_content` call.  The `login` event is modelled from the
spec: `login_ui` is imported in main.py but its body is not in the
repository; per the spec the logged-in flag is the only state it governs and
the history has "no lifecycle beyond cleared on logout".
-/

/-- One conversation history entry (the shape `display_conversation_history`
in src/utils/helpers.py reads: question, answer, thoughts). -/
structure Triple where
  question : List Char
  answer : List Char
  thoughts : List Char
deriving DecidableEq

structure AppState where
  logged_in : Bool
  history : List Triple
deriving DecidableEq

inductive UIEvent where
  | login
  | logout
  | submitText (prompt : List Char)
  | speakRequest (prompt : List Char)
  | analyzeWebcam (prompt : List Char)
  | docusignClick
  | snowflakeClick
deriving DecidableEq

/-- What a handler renders to the page. -/
inductive Display where
  | info (msg : List Char)
  | warn (msg : List Char)
  | response (main thoughts : List Char)
  | visionResponse (main : List Char) (thoughts : Option (List Char))
  | crash
deriving DecidableEq

/-- One Streamlit rerun handling event `e` from state `s`: the new session
state and what was rendered.  The text/talk handlers unpack
`process_text_request`'s return value into `response, thoughts`; when that
value is the bare error string the unpacking itself raises (`crash`).
The DocuSign and Snowflake buttons are non-functional placeholders. -/
def step (gen : List Char → Except (List Char) (List Char))
    (s : AppState) (e : UIEvent) : AppState × List Display :=
  match e with
  | UIEvent.login => ({ s with logged_in := true }, [])
  | UIEvent.logout => ({ logged_in := false, history := [] }, [])
  | UIEvent.submitText p =>
    if s.logged_in then
      if p = [] then (s, [Display.warn ("Please enter a prompt.".data)])
      else
        match process_text_request gen p none with
        | PyResult.pair m th => (s, [Display.response m th])
        | PyResult.errString _ => (s, [Display.crash])
    else (s, [Display.info ("Please log in to use DocuNexus AGI-Agent.".data)])
  | UIEvent.speakRequest p =>
    if s.logged_in then
      if p = [] then (s, [Display.warn ("Please enter a voice request (placeholder text).".data)])
      else
        match process_text_request gen p none with
        | PyResult.pair m th => (s, [Display.response m th])
        | PyResult.errString _ => (s, [Display.crash])
    else (s, [Display.info ("Please log in to use DocuNexus AGI-Agent.".data)])
  | UIEvent.analyzeWebcam p =>
    if s.logged_in then
      if p = [] then (s, [Display.warn ("Please enter a question about the webcam view.".data)])
      else
        let r := process_vision_request gen p
        (s, [Display.visionResponse r.1 r.2])
    else (s, [Display.info ("Please log in to use DocuNexus AGI-Agent.".data)])
  | UIEvent.docusignClick => (s, [])
  | UIEvent.snowflakeClick => (s, [])

/-
=== src/integrations/docusign_api.py (AzureDocuSignIntegration) ===
-/

/-- `AzureDocuSignIntegration.upload_document_to_blob`: the blob upload is
wrapped in a handler that logs and re-raises, so a vendor failure propagates
to the caller; success returns the blob URL. -/
def upload_document_to_blob (vendor : Except (List Char) (List Char)) :
    Except (List Char) (List Char) :=
  match vendor with
  | Except.ok url => Except.ok url
  | Except.error e => Except.error e

/-- Return value of `send_to_docusign`: the parsed JSON on HTTP 201, or the
`\x7b"status": "error", "message": ...\x7d` dict otherwise. -/
inductive DocuSignResult where
  | okJson (body : List Char)
  | errDict (message : List Char)
deriving DecidableEq

/-- `AzureDocuSignIntegration.send_to_docusign`: `post` is the
`requests.post` outcome (status code and body); a non-201 status and a
raised exception both produce the error dict. -/
def send_to_docusign (post : Except (List Char) (Nat × List Char)) : DocuSignResult :=
  match post with
  | Except.ok sb => if sb.1 = 201 then DocuSignResult.okJson sb.2 else DocuSignResult.errDict sb.2
  | Except.error e => DocuSignResult.errDict e

/-
=== src/media_workflows/batch_processor.py (AzureBatchProcessor) ===
Each method wraps its vendor calls in a handler that logs and re-raises.
-/

/-- `AzureBatchProcessor.upload_files_to_blob`: uploads each file in turn,
collecting blob URLs; the whole loop sits in one handler that logs and
re-raises, so the first failing upload propagates. -/
def upload_files_to_blob (uploads : List (Except (List Char) (List Char))) :
    Except (List Char) (List (List Char)) :=
  match uploads with
  | [] => Except.ok []
  | u :: rest =>
    match u with
    | Except.error e => Except.error e
    | Except.ok url =>
      match upload_files_to_blob rest with
      | Except.ok urls => Except.ok (url :: urls)
      | Except.error e => Except.error e

/-- `AzureBatchProcessor.create_batch_pool`: on success returns the pool
parameter (identified by its id here); a vendor failure is logged and
re-raised. -/
def create_batch_pool (add : Except (List Char) Unit) (pool_id : List Char) :
    Except (List Char) (List Char) :=
  match add with
  | Except.ok _ => Except.ok pool_id
  | Except.error e => Except.error e

/-- `AzureBatchProcessor.submit_batch_job`: on success returns the job id;
a vendor failure is logged and re-raised. -/
def submit_batch_job (addJobAndTasks : Except (List Char) Unit) (job_id : List Char) :
    Except (List Char) (List Char) :=
  match addJobAndTasks with
  | Except.ok _ => Except.ok job_id
  | Except.error e => Except.error e

/-
=== src/media_workflows/media_converter.py (AzureMediaConverter) ===
Each of the four operations wraps its vendor call in a handler that logs and
re-raises; success returns the vendor object (assets/transforms/jobs are
identified by name here) or nothing for the upload.
-/

/-- `AzureMediaConverter.create_asset`. -/
def create_asset (createOrUpdate : Except (List Char) (List Char)) :
    Except (List Char) (List Char) :=
  match createOrUpdate with
  | Except.ok asset => Except.ok asset
  | Except.error e => Except.error e

/-- `AzureMediaConverter.upload_to_asset` (returns nothing on success). -/
def upload_to_asset (vendor : Except (List Char) Unit) : Except (List Char) Unit :=
  match vendor with
  | Except.ok _ => Except.ok ()
  | Except.error e => Except.error e

/-- `AzureMediaConverter.create_transform`. -/
def create_transform (createOrUpdate : Except (List Char) (List Char)) :
    Except (List Char) (List Char) :=
  match createOrUpdate with
  | Except.ok transform => Except.ok transform
  | Except.error e => Except.error e

/-- `AzureMediaConverter.submit_job`. -/
def submit_job (create : Except (List Char) (List Char)) :
    Except (List Char) (List Char) :=
  match create with
  | Except.ok job => Except.ok job
  | Except.error e => Except.error e

/-
=== src/media_workflows/content_analyzer.py (AzureMetadataEditor) ===
-/

/-- Python `os.path.basename` for POSIX-style paths. -/
def pyBasename (path : List Char) : List Char :=
  (pySplit ("/".data) path).getLastD []

/-- `AzureMetadataEditor.upload_to_blob` (named with the class prefix to
distinguish it from the helpers-module function of the same name): it
performs no exception handling at all — the vendor outcome, URL or
exception, propagates unchanged. -/
def editor_upload_to_blob (vendor : Except (List Char) (List Char)) :
    Except (List Char) (List Char) :=
  vendor

/-- `AzureMetadataEditor.edit_mp3_metadata`: edits the tags in place and
returns the same path; failures are logged and re-raised. -/
def edit_mp3_metadata (save : Except (List Char) Unit) (file_path : List Char) :
    Except (List Char) (List Char) :=
  match save with
  | Except.ok _ => Except.ok file_path
  | Except.error e => Except.error e

/-- `AzureMetadataEditor.edit_image_metadata`: saves the image to
`"updated_" + basename` and returns that path; failures are logged and
re-raised. -/
def edit_image_metadata (save : Except (List Char) Unit) (file_path : List Char) :
    Except (List Char) (List Char) :=
  match save with
  | Except.ok _ => Except.ok ("updated_".data ++ pyBasename file_path)
  | Except.error e => Except.error e

/-
=== src/utils/helpers.py upload_to_blob ===
-/

/-- `upload_to_blob` in src/utils/helpers.py: catches every exception, shows
an error in the UI, and returns `None`; success returns the blob URL. -/
def helpers_upload_to_blob (vendor : Except (List Char) (List Char)) :
    Option (List Char) :=
  match vendor with
  | Except.ok url => some url
  | Except.error _ => none

/-
=== Concrete instances used in witnesses and counterexamples ===
-/

/-- A model stub that always answers with a fixed, marker-free response. -/
def genDemo : List Char → Except (List Char) (List Char) :=
  fun _ => Except.ok ("The document is a contract.".data)

/-- A model stub whose call always raises. -/
def genBoom : List Char → Except (List Char) (List Char) :=
  fun _ => Except.error ("boom".data)

/-- A model response containing the summarizer's thoughts marker twice. -/
def cexSummary : List Char :=
  "a ***Thought Process:*** b ***Thought Process:*** c".data

/-- An environment in which every variable is set to "v". -/
def envAllV : List Char → Option (List Char) := fun _ => some ("v".data)

/-- The configuration `load_config` produces from `envAllV` without Key Vault. -/
def cfgV : AppConfig :=
  { phi4mm_api_key := "v".data
    azure_api_key := "v".data
    docusign_api_key := some ("v".data)
    snowflake_user := some ("v".data)
    snowflake_password := some ("v".data)
    snowflake_account := some ("v".data)
    snowflake_warehouse := some ("v".data)
    snowflake_database := some ("v".data)
    snowflake_schema := some ("v".data)
    phi4mm_model_name := "v".data
    azure_endpoint := "v".data
    azure_model_name := "v".data
    system_instruction := systemInstructionText }

/-- A `json.loads` stub: "[1]" parses to a one-element list, "1" to a number,
anything else fails to parse. -/
def loadsDemo : List Char → Option JsonVal :=
  fun b =>
    if b = ("[1]".data) then some (JsonVal.jlist [JsonVal.jnum 1])
    else if b = ("1".data) then some (JsonVal.jnum 1)
    else none

/-
=== Helper lemmas: characterizing `pySplit` by the first occurrence ===
-/

theorem pySplitGo_fuel_irrel (sep : List Char) :
    ∀ fuel fuel' acc s, s.length ≤ fuel → s.length ≤ fuel' →
      pySplitGo sep fuel acc s = pySplitGo sep fuel' acc s := by
  intro fuel
  induction fuel with
  | zero =>
    intro fuel' acc s hs hs'
    have hnil : s = [] := List.eq_nil_of_length_eq_zero (Nat.le_zero.mp hs)
    subst hnil
    cases fuel' <;> simp [pySplitGo]
  | succ f ih =>
    intro fuel' acc s hs hs'
    cases s with
    | nil => cases fuel' <;> simp [pySplitGo]
    | cons c rest =>
      cases fuel' with
      | zero => simp at hs'
      | succ f' =>
        simp only [pySplitGo]
        by_cases hp : sep.isPrefixOf (c :: rest) = true
        · simp only [hp, if_true]
          have hlen : (rest.drop (sep.length - 1)).length ≤ f := by
            rw [List.length_drop]
            have : rest.length ≤ f := by simpa using Nat.succ_le_succ_iff.mp hs
            omega
          have hlen' : (rest.drop (sep.length - 1)).length ≤ f' := by
            rw [List.length_drop]
            have : rest.length ≤ f' := by simpa using Nat.succ_le_succ_iff.mp hs'
            omega
          rw [ih f' [] (rest.drop (sep.length - 1)) hlen hlen']
        · simp only [hp, if_false]
          exact ih f' (c :: acc) rest (by simpa using Nat.succ_le_succ_iff.mp hs)
            (by simpa using Nat.succ_le_succ_iff.mp hs')

theorem pySplitGo_of_none (sep : List Char) :
    ∀ fuel acc s, s.length ≤ fuel → firstOcc sep s = none →
      pySplitGo sep fuel acc s = [acc.reverse ++ s] := by
  intro fuel
  induction fuel with
  | zero =>
    intro acc s hs _
    have hnil : s = [] := List.eq_nil_of_length_eq_zero (Nat.le_zero.mp hs)
    subst hnil
    simp [pySplitGo]
  | succ f ih =>
    intro acc s hs h
    cases s with
    | nil => simp [pySplitGo]
    | cons c rest =>
      by_cases hp : sep.isPrefixOf (c :: rest) = true
      · simp [firstOcc, hp] at h
      · have hrest : firstOcc sep rest = none := by
          simp only [firstOcc, hp, if_false] at h
          exact Option.map_eq_none.mp h
        simp only [pySplitGo, hp, if_false]
        rw [ih (c :: acc) rest (by simpa using Nat.succ_le_succ_iff.mp hs) hrest]
        simp


theorem pySplitGo_of_some (sep : List Char) (hsep : sep ≠ []) :
    ∀ fuel s acc i, s.length ≤ fuel → firstOcc sep s = some i →
      pySplitGo sep fuel acc s
        = (acc.reverse ++ s.take i) :: pySplit sep (s.drop (i + sep.length)) := by
  intro fuel
  induction fuel with
  | zero =>
    intro s acc i hs h
    have hnil : s = [] := List.eq_nil_of_length_eq_zero (Nat.le_zero.mp hs)
    subst hnil
    simp [firstOcc] at h
  | succ f ih =>
    intro s acc i hs h
    cases s with
    | nil => simp [firstOcc] at h
    | cons c rest =>
      have hrest : rest.length ≤ f := by simpa using Nat.succ_le_succ_iff.mp hs
      obtain ⟨k, hk⟩ : ∃ k, sep.length = k + 1 := by
        have hz : sep.length ≠ 0 := fun hz => hsep (List.eq_nil_of_length_eq_zero hz)
        exact Nat.exists_eq_succ_of_ne_zero hz
      by_cases hp : sep.isPrefixOf (c :: rest) = true
      · have hi : i = 0 := by
          simp only [firstOcc, hp, if_true, Option.some.injEq] at h
          omega
        subst hi
        simp only [pySplitGo, hp, if_true, List.take_zero, List.append_nil]
        congr 1
        have hdrop : (c :: rest).drop (0 + sep.length) = rest.drop (sep.length - 1) := by
          rw [Nat.zero_add, hk, Nat.add_sub_cancel, List.drop_succ_cons]
        rw [hdrop, pySplit]
        apply pySplitGo_fuel_irrel
        · rw [List.length_drop]; omega
        · exact le_rfl
      · have hmap : firstOcc sep (c :: rest) = (firstOcc sep rest).map (fun n => n + 1) := by
          simp only [firstOcc]
          rw [if_neg hp]
        rw [hmap, Option.map_eq_some'] at h
        obtain ⟨j, hj, hji⟩ := h
        have hji' : j + 1 = i := hji
        subst hji'
        simp only [pySplitGo]
        rw [if_neg hp]
        rw [ih rest (c :: acc) j hrest hj]
        rw [List.take_succ_cons]
        have hdrop2 : (c :: rest).drop (j + 1 + sep.length) = rest.drop (j + sep.length) := by
          have harith : j + 1 + sep.length = (j + sep.length) + 1 := by omega
          rw [harith, List.drop_succ_cons]
        rw [hdrop2]
        simp [List.reverse_cons, List.append_assoc]

theorem pySplit_of_none {sep s : List Char} (h : firstOcc sep s = none) :
    pySplit sep s = [s] := by
  have hgo := pySplitGo_of_none sep s.length [] s le_rfl h
  simpa [pySplit] using hgo

theorem pySplit_of_some {sep s : List Char} {i : Nat} (hsep : sep ≠ [])
    (h : firstOcc sep s = some i) :
    pySplit sep s = s.take i :: pySplit sep (s.drop (i + sep.length)) := by
  have hgo := pySplitGo_of_some sep hsep s.length s [] i le_rfl h
  simpa [pySplit] using hgo

/-- C2: for every model response text, `format_text_response` performs a
single split on the marker "***DocuNexus Thoughts:***", returning the
stripped text before the first occurrence as the main response, the stripped
segment immediately after that occurrence as the thoughts, and empty thoughts
when the marker is absent (the behaviour captured word-for-word by
`format_text_response_spec`). -/
theorem format_text_response_matches_spec (t : List Char) :
    format_text_response t = format_text_response_spec t := by
  have hsep : markerDN ≠ [] := by decide
  simp only [format_text_response, format_text_response_spec]
  cases h : firstOcc markerDN (pyStrip t) with
  | none =>
    rw [pySplit_of_none h]
    simp
  | some i =>
    rw [pySplit_of_some hsep h]
    cases h2 : firstOcc markerDN ((pyStrip t).drop (i + markerDN.length)) with
    | none =>
      rw [pySplit_of_none h2]
      simp [h2]
    | some j =>
      rw [pySplit_of_some hsep h2]
      simp [h2]

/-- C3: `format_data_response` (and the helper `format_response`) returns a
DataFrame built from the parsed data exactly when the input parses as a JSON
list; otherwise — valid non-list JSON or a parse failure alike — it returns
the input unchanged. -/
theorem format_data_response_json_dispatch
    (loads : List Char → Option JsonVal) (body : List Char) :
    (∀ items, loads body = some (JsonVal.jlist items) →
      format_data_response loads body = DataResponse.dataframe items
      ∧ format_response loads body = DataResponse.dataframe items)
    ∧ (∀ v, loads body = some v → (∀ items, v ≠ JsonVal.jlist items) →
      format_data_response loads body = DataResponse.raw body
      ∧ format_response loads body = DataResponse.raw body)
    ∧ (loads body = none →
      format_data_response loads body = DataResponse.raw body
      ∧ format_response loads body = DataResponse.raw body) := by
  refine ⟨?_, ?_, ?_⟩
  · intro items h
    simp [format_data_response, format_response, h]
  · intro v h hv
    cases v with
    | jlist items => exact absurd rfl (hv items)
    | jnull => simp [format_data_response, format_response, h]
    | jbool b => simp [format_data_response, format_response, h]
    | jnum n => simp [format_data_response, format_response, h]
    | jstr s => simp [format_data_response, format_response, h]
    | jobj fields => simp [format_data_response, format_response, h]
  · intro h
    simp [format_data_response, format_response, h]

/-- Witness for C3 at the concrete parser stub `loadsDemo`. -/
theorem format_data_response_json_dispatch_witness :
    (format_data_response loadsDemo ("[1]".data) = DataResponse.dataframe [JsonVal.jnum 1]
      ∧ format_response loadsDemo ("[1]".data) = DataResponse.dataframe [JsonVal.jnum 1])
    ∧ (format_data_response loadsDemo ("1".data) = DataResponse.raw ("1".data)
      ∧ format_response loadsDemo ("1".data) = DataResponse.raw ("1".data))
    ∧ (format_data_response loadsDemo ("x".data) = DataResponse.raw ("x".data)
      ∧ format_response loadsDemo ("x".data) = DataResponse.raw ("x".data)) :=
  ⟨(format_data_response_json_dispatch loadsDemo ("[1]".data)).1 [JsonVal.jnum 1] rfl,
   (format_data_response_json_dispatch loadsDemo ("1".data)).2.1 (JsonVal.jnum 1) rfl
     (fun items h => JsonVal.noConfusion h),
   (format_data_response_json_dispatch loadsDemo ("x".data)).2.2 rfl⟩

/-- C9 (amended): when the vendor call succeeds and `request_thoughts` is
true, the second component of `summarize_document` is never `None`: it is the
stripped segment between the first occurrence of "***Thought Process:***" and
the next occurrence (the whole remainder when the marker occurs once), or the
fixed fallback string when the marker is absent; with `request_thoughts`
false the second component is `None`. -/
theorem summarize_document_thoughts_amended
    (get_chat : List Char → Except (List Char) (List Char)) (d l t : List Char)
    (h : get_chat (mkSummaryPrompt d l true) = Except.ok t) :
    ((summarize_document get_chat d l true).2
        = some ((thoughtsSegment t).getD fixedThoughtsMsg)
      ∧ (summarize_document get_chat d l true).2 ≠ none)
    ∧ ∀ t', get_chat (mkSummaryPrompt d l false) = Except.ok t' →
        (summarize_document get_chat d l false).2 = none := by
  have hsep : markerTP ≠ [] := by decide
  have heq : (summarize_document get_chat d l true).2
      = some ((thoughtsSegment t).getD fixedThoughtsMsg) := by
    simp only [summarize_document, h, if_true, thoughtsSegment]
    cases h2 : firstOcc markerTP t with
    | none =>
      rw [pySplit_of_none h2]
      simp [h2]
    | some i =>
      rw [pySplit_of_some hsep h2]
      cases h3 : firstOcc markerTP (t.drop (i + markerTP.length)) with
      | none =>
        rw [pySplit_of_none h3]
        simp [h3]
      | some j =>
        rw [pySplit_of_some hsep h3]
        simp [h3]
  refine ⟨⟨heq, ?_⟩, ?_⟩
  · rw [heq]
    simp
  · intro t' h'
    simp [summarize_document, h']

/-- Witness for C9 (amended) at a concrete succeeding vendor stub. -/
theorem summarize_document_thoughts_amended_witness :
    ((summarize_document (fun _ => Except.ok cexSummary) ("d".data) ("concise".data) true).2
        = some ((thoughtsSegment cexSummary).getD fixedThoughtsMsg)
      ∧ (summarize_document (fun _ => Except.ok cexSummary) ("d".data) ("concise".data) true).2
        ≠ none)
    ∧ ∀ t', (Except.ok cexSummary : Except (List Char) (List Char)) = Except.ok t' →
        (summarize_document (fun _ => Except.ok cexSummary) ("d".data) ("concise".data) false).2
          = none :=
  summarize_document_thoughts_amended (fun _ => Except.ok cexSummary)
    ("d".data) ("concise".data) cexSummary rfl

/-- C9 counterexample to the claim as stated: on a response containing the
marker twice, the returned thoughts are the stripped segment between the two
occurrences ("b"), which is neither the stripped text after the marker nor
the fixed fallback string. -/
theorem summarize_document_thoughts_cex :
    (summarize_document (fun _ => Except.ok cexSummary) ("d".data) ("concise".data) true).2
      = some ("b".data)
    ∧ pyStrip (textAfterFirst markerTP cexSummary) = "b ***Thought Process:*** c".data
    ∧ "b".data ≠ pyStrip (textAfterFirst markerTP cexSummary)
    ∧ "b".data ≠ fixedThoughtsMsg := by
  refine ⟨by decide, by decide, by decide, by decide⟩

/-- C1 counterexample: when the model call raises, `process_text_request`
returns a string prefixed with "Error processing request with AI model: ",
not with "Error occurred:". -/
theorem error_prefix_claim_cex :
    process_text_request genBoom ("hi".data) none
      = PyResult.errString ("Error processing request with AI model: boom".data)
    ∧ ("Error occurred: ".data).isPrefixOf
        ("Error processing request with AI model: boom".data) = false := by
  exact ⟨rfl, by decide⟩

/-- C1 (amended): when a vendor call raises, the outcome is
operation-specific rather than a uniform "Error occurred:"-prefixed string:
`analyze_metadata` and `summarize_document` return "Error occurred: "
strings; `process_text_request` and `process_vision_request` return strings
prefixed with "Error processing request with AI model: " and "Error
processing vision request: "; the document parser's helpers return the empty
string (wrapped in `some` by `parse_document`); `send_to_docusign` returns a
status/message error dict; the helpers-module blob upload returns `None`;
the DocuSign document upload, the batch-processor operations, the
media-converter operations and the metadata-editor edit operations log and
re-raise, returning nothing; and the metadata editor's own blob upload
performs no exception handling at all, propagating the vendor outcome
unchanged. -/
theorem error_handling_per_operation
    (gen chat : List Char → Except (List Char) (List Char))
    (p : List Char) (ctx : Option (List (List Char)))
    (md : List (List Char × List Char)) (d l name : List Char) (rt : Bool)
    (e : List Char)
    (dxv : Except (List Char) (List (List Char)))
    (txv : Except (List Char) (List Char))
    (pid jid fp : List Char) :
    (gen (create_prompt ("document_analysis".data) p ctx) = Except.error e →
      process_text_request gen p ctx
        = PyResult.errString ("Error processing request with AI model: ".data ++ e))
    ∧ (gen p = Except.error e →
      process_vision_request gen p = ("Error processing vision request: ".data ++ e, none))
    ∧ (chat (metadataPrompt md) = Except.error e →
      analyze_metadata chat md = "Error occurred: ".data ++ e)
    ∧ (chat (mkSummaryPrompt d l rt) = Except.error e →
      summarize_document chat d l rt = ("Error occurred: ".data ++ e, none))
    ∧ (fileExtension name ∈ azureExtensions →
      parse_document name (Except.error e) dxv txv = some [])
    ∧ parse_with_azure (Except.error e) = []
    ∧ send_to_docusign (Except.error e) = DocuSignResult.errDict e
    ∧ upload_document_to_blob (Except.error e) = Except.error e
    ∧ (∀ pre us, (∀ u, u ∈ pre → ∃ url, u = Except.ok url) →
      upload_files_to_blob (pre ++ Except.error e :: us) = Except.error e)
    ∧ create_batch_pool (Except.error e) pid = Except.error e
    ∧ submit_batch_job (Except.error e) jid = Except.error e
    ∧ create_asset (Except.error e) = Except.error e
    ∧ upload_to_asset (Except.error e) = Except.error e
    ∧ create_transform (Except.error e) = Except.error e
    ∧ submit_job (Except.error e) = Except.error e
    ∧ edit_mp3_metadata (Except.error e) fp = Except.error e
    ∧ edit_image_metadata (Except.error e) fp = Except.error e
    ∧ (∀ u, editor_upload_to_blob u = u)
    ∧ helpers_upload_to_blob (Except.error e) = none := by
  refine ⟨?_, ?_, ?_, ?_, ?_, rfl, rfl, rfl, ?_, rfl, rfl, rfl, rfl, rfl, rfl, rfl, rfl,
    fun u => rfl, rfl⟩
  · intro h
    simp [process_text_request, h]
  · intro h
    simp [process_vision_request, h]
  · intro h
    simp [analyze_metadata, h]
  · intro h
    simp [summarize_document, h]
  · intro h
    simp only [parse_document]
    rw [if_pos h]
    simp [parse_with_azure]
  · intro pre us hpre
    induction pre with
    | nil => rfl
    | cons u rest ih =>
      obtain ⟨url, hu⟩ := hpre u (List.mem_cons_self u rest)
      have ih2 := ih (fun v hv => hpre v (List.mem_cons_of_mem u hv))
      rw [List.cons_append, hu]
      simp [upload_files_to_blob, ih2]

/-- Witness for C1 (amended) at concrete failing vendor stubs for every
operation (and one succeeding upload preceding the failing one in the batch
loop). -/
theorem error_handling_per_operation_witness :
    (process_text_request genBoom ("hi".data) none
      = PyResult.errString ("Error processing request with AI model: ".data ++ "boom".data))
    ∧ (process_vision_request genBoom ("hi".data)
      = ("Error processing vision request: ".data ++ "boom".data, none))
    ∧ (analyze_metadata genBoom [] = "Error occurred: ".data ++ "boom".data)
    ∧ (summarize_document genBoom ("doc".data) ("concise".data) true
      = ("Error occurred: ".data ++ "boom".data, none))
    ∧ (parse_document ("a.pdf".data) (Except.error ("boom".data)) (Except.ok []) (Except.ok [])
      = some [])
    ∧ parse_with_azure (Except.error ("boom".data)) = ([] : List Char)
    ∧ send_to_docusign (Except.error ("boom".data)) = DocuSignResult.errDict ("boom".data)
    ∧ upload_document_to_blob (Except.error ("boom".data)) = Except.error ("boom".data)
    ∧ upload_files_to_blob [Except.ok ("u".data), Except.error ("boom".data)]
      = Except.error ("boom".data)
    ∧ create_batch_pool (Except.error ("boom".data)) ("pool1".data)
      = Except.error ("boom".data)
    ∧ submit_batch_job (Except.error ("boom".data)) ("job1".data)
      = Except.error ("boom".data)
    ∧ create_asset (Except.error ("boom".data)) = Except.error ("boom".data)
    ∧ upload_to_asset (Except.error ("boom".data)) = Except.error ("boom".data)
    ∧ create_transform (Except.error ("boom".data)) = Except.error ("boom".data)
    ∧ submit_job (Except.error ("boom".data)) = Except.error ("boom".data)
    ∧ edit_mp3_metadata (Except.error ("boom".data)) ("f.mp3".data)
      = Except.error ("boom".data)
    ∧ edit_image_metadata (Except.error ("boom".data)) ("f.mp3".data)
      = Except.error ("boom".data)
    ∧ editor_upload_to_blob (Except.ok ("u".data)) = Except.ok ("u".data)
    ∧ helpers_upload_to_blob (Except.error ("boom".data)) = none := by
  obtain ⟨h1, h2, h3, h4, h5, h6, h7, h8, h9, h10, h11, h12, h13, h14, h15, h16, h17,
      h18, h19⟩ :=
    error_handling_per_operation genBoom genBoom ("hi".data) none []
      ("doc".data) ("concise".data) ("a.pdf".data) true ("boom".data)
      (Except.ok []) (Except.ok []) ("pool1".data) ("job1".data) ("f.mp3".data)
  refine ⟨h1 rfl, h2 rfl, h3 rfl, h4 rfl, h5 (by decide), h6, h7, h8, ?_, h10, h11,
    h12, h13, h14, h15, h16, h17, h18 (Except.ok ("u".data)), h19⟩
  exact h9 [Except.ok ("u".data)] []
    (fun u hu => ⟨("u".data), by rw [List.mem_singleton] at hu; exact hu⟩)

/-- C7: `create_prompt` is pure string interpolation: each of the three named
task types yields its fixed template (with the default keyword arguments)
around the verbatim user prompt — document analysis additionally embedding
the newline-joined context documents verbatim when context is given — and
every other task type yields the default template around the verbatim user
prompt. -/
theorem create_prompt_pure_interpolation
    (p : List Char) (ctx : Option (List (List Char)))
    (docs : List (List Char)) (t : List Char) :
    (create_prompt ("document_analysis".data) p ctx
      = daSeg1 ++ "comprehensive".data ++ daSeg2 ++ "English".data ++ daSeg3 ++ p
        ++ daSeg4 ++ renderContextDocs ctx ++ daSeg5 ++ daThoughts)
    ∧ (docs ≠ [] → renderContextDocs (some docs) = List.intercalate ("\n".data) docs)
    ∧ (create_prompt ("media_summarization".data) p ctx
      = msSeg1 ++ "concise".data ++ msSeg2 ++ "English".data ++ msSeg3 ++ p
        ++ msSeg4 ++ renderMediaDescription ctx ++ msSeg5)
    ∧ (create_prompt ("webcam_vision_analysis".data) p ctx
      = wvSeg1 ++ "detailed".data ++ wvSeg2 ++ "English".data ++ wvSeg3 ++ p ++ wvSeg4
        ++ wvThoughts)
    ∧ (t ≠ ("document_analysis".data) → t ≠ ("media_summarization".data) →
        t ≠ ("webcam_vision_analysis".data) →
      create_prompt t p ctx = dfSeg1 ++ p ++ dfSeg2 ++ renderDefaultContext ctx ++ dfSeg3) := by
  refine ⟨?_, ?_, ?_, ?_, ?_⟩
  · simp [create_prompt, document_analysis_prompt, List.append_assoc]
  · intro h
    simp [renderContextDocs, h]
  · have hne : ("media_summarization".data) ≠ ("document_analysis".data) := by decide
    simp [create_prompt, hne, media_summarization_prompt, List.append_assoc]
  · have hne1 : ("webcam_vision_analysis".data) ≠ ("document_analysis".data) := by decide
    have hne2 : ("webcam_vision_analysis".data) ≠ ("media_summarization".data) := by decide
    simp [create_prompt, hne1, hne2, webcam_vision_prompt, List.append_assoc]
  · intro h1 h2 h3
    simp [create_prompt, h1, h2, h3, default_prompt, List.append_assoc]

/-- Witness for C7 at a concrete prompt, context and unknown task type. -/
theorem create_prompt_pure_interpolation_witness :
    (create_prompt ("document_analysis".data) ("Q".data) (some ["D1".data, "D2".data])
      = daSeg1 ++ "comprehensive".data ++ daSeg2 ++ "English".data ++ daSeg3 ++ "Q".data
        ++ daSeg4 ++ renderContextDocs (some ["D1".data, "D2".data]) ++ daSeg5 ++ daThoughts)
    ∧ renderContextDocs (some ["D1".data, "D2".data])
        = List.intercalate ("\n".data) ["D1".data, "D2".data]
    ∧ (create_prompt ("media_summarization".data) ("Q".data) (some ["D1".data, "D2".data])
      = msSeg1 ++ "concise".data ++ msSeg2 ++ "English".data ++ msSeg3 ++ "Q".data
        ++ msSeg4 ++ renderMediaDescription (some ["D1".data, "D2".data]) ++ msSeg5)
    ∧ (create_prompt ("webcam_vision_analysis".data) ("Q".data) (some ["D1".data, "D2".data])
      = wvSeg1 ++ "detailed".data ++ wvSeg2 ++ "English".data ++ wvSeg3 ++ "Q".data ++ wvSeg4
        ++ wvThoughts)
    ∧ create_prompt ("other".data) ("Q".data) (some ["D1".data, "D2".data])
        = dfSeg1 ++ "Q".data ++ dfSeg2
          ++ renderDefaultContext (some ["D1".data, "D2".data]) ++ dfSeg3 := by
  have H := create_prompt_pure_interpolation ("Q".data) (some ["D1".data, "D2".data])
    ["D1".data, "D2".data] ("other".data)
  exact ⟨H.1, H.2.1 (by decide), H.2.2.1, H.2.2.2.1,
    H.2.2.2.2 (by decide) (by decide) (by decide)⟩

/-- C8: `parse_document` returns `none` exactly when the lowercased extension
after the last dot of the file name is outside pdf/jpeg/jpg/png/docx/txt,
whereas a failure inside a supported format's parser yields `some ""`
(the dispatch itself, once embedded, contains no vendor call that can
raise — each helper catches its own exceptions). -/
theorem parse_document_none_iff
    (name nameA nameD nameT : List Char)
    (azv : Except (List Char) (List (List (List Char))))
    (dxv : Except (List Char) (List (List Char)))
    (txv : Except (List Char) (List Char)) (e : List Char) :
    (parse_document name azv dxv txv = none ↔ fileExtension name ∉ supportedExtensions)
    ∧ (fileExtension nameA ∈ azureExtensions →
        parse_document nameA (Except.error e) dxv txv = some [])
    ∧ (fileExtension nameD = ("docx".data) →
        parse_document nameD azv (Except.error e) txv = some [])
    ∧ (fileExtension nameT = ("txt".data) →
        parse_document nameT azv dxv (Except.error e) = some []) := by
  refine ⟨?_, ?_, ?_, ?_⟩
  · by_cases h1 : fileExtension name ∈ azureExtensions
    · have hs : fileExtension name ∈ supportedExtensions := by
        simp only [azureExtensions, List.mem_cons, List.not_mem_nil, or_false] at h1
        simp only [supportedExtensions, List.mem_cons, List.not_mem_nil, or_false]
        tauto
      simp only [parse_document]
      rw [if_pos h1]
      simp [hs]
    · by_cases h2 : fileExtension name = ("docx".data)
      · have hs : fileExtension name ∈ supportedExtensions := by
          simp only [supportedExtensions, List.mem_cons, List.not_mem_nil, or_false]
          tauto
        simp only [parse_document]
        rw [if_neg h1, if_pos h2]
        simp [hs]
      · by_cases h3 : fileExtension name = ("txt".data)
        · have hs : fileExtension name ∈ supportedExtensions := by
            simp only [supportedExtensions, List.mem_cons, List.not_mem_nil, or_false]
            tauto
          simp only [parse_document]
          rw [if_neg h1, if_neg h2, if_pos h3]
          simp [hs]
        · have hs : fileExtension name ∉ supportedExtensions := by
            simp only [azureExtensions, List.mem_cons, List.not_mem_nil, or_false] at h1
            simp only [supportedExtensions, List.mem_cons, List.not_mem_nil, or_false]
            tauto
          simp only [parse_document]
          rw [if_neg h1, if_neg h2, if_neg h3]
          simp [hs]
  · intro h
    simp only [parse_document]
    rw [if_pos h]
    simp [parse_with_azure]
  · intro h
    have h1 : fileExtension nameD ∉ azureExtensions := by rw [h]; decide
    simp only [parse_document]
    rw [if_neg h1, if_pos h]
    simp [parse_docx]
  · intro h
    have h1 : fileExtension nameT ∉ azureExtensions := by rw [h]; decide
    have h2 : fileExtension nameT ≠ ("docx".data) := by rw [h]; decide
    simp only [parse_document]
    rw [if_neg h1, if_neg h2, if_pos h]
    simp [parse_txt]

/-- Witness for C8 at concrete file names with failing vendor calls. -/
theorem parse_document_none_iff_witness :
    (parse_document ("a.xyz".data) (Except.error ("x".data)) (Except.ok []) (Except.ok [])
        = none
      ↔ fileExtension ("a.xyz".data) ∉ supportedExtensions)
    ∧ parse_document ("a.PDF".data) (Except.error ("x".data)) (Except.ok []) (Except.ok [])
        = some []
    ∧ parse_document ("b.docx".data) (Except.error ("x".data)) (Except.error ("x".data))
        (Except.ok []) = some []
    ∧ parse_document ("c.txt".data) (Except.error ("x".data)) (Except.ok [])
        (Except.error ("x".data)) = some [] := by
  have H := parse_document_none_iff ("a.xyz".data) ("a.PDF".data) ("b.docx".data)
    ("c.txt".data) (Except.error ("x".data)) (Except.error ("x".data))
    (Except.error ("x".data)) ("x".data)
  exact ⟨H.1, H.2.1 (by decide), H.2.2.1 (by decide), H.2.2.2 (by decide)⟩

/-- C5: the logout handler sets the logged-in flag to false and empties the
session history, and no other UI event of the application changes the
history list at all (in particular none removes entries). -/
theorem logout_resets_login_and_history
    (gen : List Char → Except (List Char) (List Char)) (s : AppState) (e : UIEvent)
    (h : e ≠ UIEvent.logout) :
    (step gen s UIEvent.logout).1.logged_in = false
    ∧ (step gen s UIEvent.logout).1.history = []
    ∧ (step gen s e).1.history = s.history := by
  refine ⟨rfl, rfl, ?_⟩
  cases e with
  | login => rfl
  | logout => exact absurd rfl h
  | docusignClick => rfl
  | snowflakeClick => rfl
  | submitText p =>
    by_cases hl : s.logged_in
    · by_cases hp : p = []
      · simp [step, hl, hp]
      · cases hr : process_text_request gen p none <;> simp [step, hl, hp, hr]
    · simp [step, hl]
  | speakRequest p =>
    by_cases hl : s.logged_in
    · by_cases hp : p = []
      · simp [step, hl, hp]
      · cases hr : process_text_request gen p none <;> simp [step, hl, hp, hr]
    · simp [step, hl]
  | analyzeWebcam p =>
    by_cases hl : s.logged_in
    · by_cases hp : p = []
      · simp [step, hl, hp]
      · simp [step, hl, hp]
    · simp [step, hl]

/-- Witness for C5 at a concrete one-entry history and the login event. -/
theorem logout_resets_login_and_history_witness :
    (step genDemo (AppState.mk true [Triple.mk ("q".data) ("a".data) ("th".data)])
        UIEvent.logout).1.logged_in = false
    ∧ (step genDemo (AppState.mk true [Triple.mk ("q".data) ("a".data) ("th".data)])
        UIEvent.logout).1.history = []
    ∧ (step genDemo (AppState.mk true [Triple.mk ("q".data) ("a".data) ("th".data)])
        UIEvent.login).1.history = [Triple.mk ("q".data) ("a".data) ("th".data)] :=
  logout_resets_login_and_history genDemo
    (AppState.mk true [Triple.mk ("q".data) ("a".data) ("th".data)]) UIEvent.login (by decide)

/-- C4 (the code evaluated at the failing input): a logged-in Text Input
submission with a non-empty prompt and a successful model call renders a
response but appends no question/answer/thoughts triple — the session
history stays empty. -/
theorem submit_text_appends_no_triple :
    (step genDemo (AppState.mk true []) (UIEvent.submitText ("Summarize this".data))).1.history
      = []
    ∧ (step genDemo (AppState.mk true []) (UIEvent.submitText ("Summarize this".data))).2
      = [Display.response ("The document is a contract.".data) []] := by
  exact ⟨rfl, by decide⟩

/-- C6: the configuration is produced once, by `load_config` at `AppConfig`
construction, and no operation the repository performs on a configuration
after construction (secret reads, attribute reads) changes any configuration
value: any sequence of post-construction operations leaves the loaded
configuration exactly as constructed. -/
theorem config_never_mutated_after_load
    (kv : Option (List Char → Option (List Char)))
    (env : List Char → Option (List Char)) (cfg : AppConfig)
    (h : load_config kv env = Except.ok cfg) (ops : List ConfigOp) :
    runConfigOps kv env cfg ops = cfg := by
  induction ops with
  | nil => rfl
  | cons op ops ih =>
    have hop : (runConfigOp kv env cfg op).1 = cfg := by cases op <;> rfl
    simp only [runConfigOps, List.foldl_cons, hop]
    exact ih

/-- Witness for C6: the configuration loaded from an all-set environment is
unchanged by a secret read followed by an attribute read. -/
theorem config_never_mutated_after_load_witness :
    runConfigOps none envAllV cfgV
      [ConfigOp.getSecretOp ("X".data), ConfigOp.readField ConfigField.azureEndpoint]
      = cfgV :=
  config_never_mutated_after_load none envAllV cfgV rfl
    [ConfigOp.getSecretOp ("X".data), ConfigOp.readField ConfigField.azureEndpoint]

/-- C10: `execute_query` returns `None` when the connection cannot be
established and when the query raises; and whenever a connection was
established, it is closed before the call returns — on success and failure
alike (the returned event trace is always connect-then-close). -/
theorem execute_query_none_and_closed
    (run : Nat → Except (List Char) (List (List Char))) :
    (execute_query none run = (none, []))
    ∧ (∀ c e, run c = Except.error e → (execute_query (some c) run).1 = none)
    ∧ (∀ c, (execute_query (some c) run).2
        = [ConnEvent.connected c, ConnEvent.closed c]) := by
  refine ⟨rfl, ?_, ?_⟩
  · intro c e hr
    simp [execute_query, hr]
  · intro c
    cases hr : run c <;> simp [execute_query, hr]

/-- Witness for C10 at a run stub whose execution always raises. -/
theorem execute_query_none_and_closed_witness :
    (execute_query none (fun _ => Except.error ("E".data)) = (none, []))
    ∧ (execute_query (some 0) (fun _ => Except.error ("E".data))).1 = none
    ∧ (execute_query (some 0) (fun _ => Except.error ("E".data))).2
        = [ConnEvent.connected 0, ConnEvent.closed 0] := by
  have H := execute_query_none_and_closed (fun _ => Except.error ("E".data))
  exact ⟨H.1, H.2.1 0 ("E".data) rfl, H.2.2 0⟩
